import Mathlib

/-!
# Verification of the waveforms scheduler core

Shallow embedding of `src/waveforms/sched/base.py` and
`src/waveforms/sched/scheduler.py`: the task ordering, the task runtime and
deep-copy semantics, the per-task submit/fetch activities, the submission
dispatch loop, the scheduler-level `submit`/`cancel` operations, and the
status state machine.

Python floats that are only ever compared (`at`, `created_time`, timestamps)
are modelled as `Int`; no float arithmetic occurs in the embedded code.
Python exceptions are modelled as explicit outcome values; executor calls are
recorded as events in a trace.
-/

namespace Waveforms

/-- Task status strings, spelled as in the source
(`'not submited'`, `'submiting'` are the source's spellings). -/
inductive Status where
  | notSubmited
  | pending
  | compiling
  | submiting
  | running
  | finished
  | failed
  | cancelled
deriving DecidableEq, Repr, Fintype

/-- A status is terminal. -/
def Status.isTerminal : Status → Bool
  | .finished | .failed | .cancelled => true
  | _ => false

/-- Commands for the executor (`base.py` `COMMAND` subclasses); only the
address/value payload matters to the scheduler. -/
inductive Cmd where
  | WRITE (address : String) (value : Int)
  | READ (address : String)
  | TRIG (address : String)
deriving DecidableEq, Repr

/-- Executor boundary calls made by the scheduler code, recorded as events. -/
inductive ECall where
  | feed (taskId : Int) (stepId : Int) (cmds : List Cmd)
  | free (taskId : Int)
  | save (taskId : Int)
deriving DecidableEq, Repr

/-! ## Task ordering (`base.py` lines 259-261, claim C1) -/

/-- The three runtime fields consulted by `Task.__lt__`:
`runtime.at` (scheduled time), `priority`, `runtime.created_time`. -/
structure TaskKey where
  atTime : Int
  priority : Int
  created : Int
deriving DecidableEq, Repr

/-- Python's lexicographic `<` on a 3-tuple. -/
def tripleLt (x y : Int × Int × Int) : Bool :=
  x.1 < y.1 ∨ (x.1 = y.1 ∧ (x.2.1 < y.2.1 ∨ (x.2.1 = y.2.1 ∧ x.2.2 < y.2.2)))

/-- Embeds `Task.__lt__` (base.py 259-261), translated verbatim:

    return ((self.runtime.at, self.priority, self.runtime.created_time) <
            (self.runtime.at, other.priority, other.runtime.created_time))

Note that the first component of BOTH tuples is `self.runtime.at`. -/
def task_lt (a b : TaskKey) : Bool :=
  tripleLt (a.atTime, a.priority, a.created) (a.atTime, b.priority, b.created)

/-- The ordering the spec describes (§4.2): compare
`(scheduled_time, priority, creation_time)` of the two tasks
lexicographically.  This definition follows the spec's words and is to be
compared with `task_lt`, which follows the source. -/
def spec_task_lt (a b : TaskKey) : Bool :=
  tripleLt (a.atTime, a.priority, a.created) (b.atTime, b.priority, b.created)

/-! ## Task runtime and deep copy (`base.py` 121-153, 252-257, claim C10) -/

/-- The per-task result buffer (`TaskRuntime.result` default factory):
`{'index': {}, 'states': [], 'counts': [], 'diags': []}`. -/
structure ResultBuffer where
  index : List (String × Int)
  states : List Int
  counts : List Int
  diags : List Int
deriving DecidableEq, Repr

/-- The empty result buffer produced by the `TaskRuntime` default factory. -/
def emptyResult : ResultBuffer := ⟨[], [], [], []⟩

/-- Embeds `TaskRuntime` (base.py 121-153).  `prog` is a Python object reference;
object identity is modelled by an index (`progRef`) into a heap of
`Program` values, so that sharing versus copying is observable.
`kernel`, `db`, `user` and `record` are object references or `None`. -/
structure TaskRuntime where
  priority : Int := 0
  daemon : Bool := false
  atTime : Int := -1
  period : Int := -1
  status : Status := .notSubmited
  id : Int := -1
  created_time : Int
  started_time : Int := -1
  finished_time : Int := -1
  kernel : Option Nat := none
  progRef : Nat
  step : Nat := 0
  sub_index : Nat := 0
  result : ResultBuffer := emptyResult
deriving DecidableEq, Repr

/-- One compiled step of a program (`Program.steps` entry): its command
list and the signal entry of its data map (the only parts the scheduler
reads). -/
structure Step where
  cmds : List Cmd
  signal : String
deriving DecidableEq, Repr

/-- Embeds `Program` (base.py 100-118), the parts the scheduler reads. -/
structure Program where
  with_feedback : Bool := false
  compiled : Bool := false
  side_effects : List (String × Int) := []
  steps : List Step := []
deriving DecidableEq, Repr

/-- A task object: its `__dict__` holds the private `__runtime` attribute
plus subclass attributes (represented by `payload`). -/
structure TaskObj where
  runtime : TaskRuntime
  payload : List Int := []
deriving DecidableEq, Repr

/-- Embeds `Task.__deepcopy__` (base.py 252-257):

    memo = {id(self.__runtime): TaskRuntime(prog=self.__runtime.prog)}
    ret = copy.copy(self)
    for attr, value in self.__dict__.items():
        setattr(ret, attr, copy.deepcopy(value, memo))
    return ret

The memo maps the old runtime object to a freshly constructed
`TaskRuntime` whose every field is the dataclass default except `prog`,
which is the ORIGINAL program reference (the fresh runtime is returned
as-is on the memo hit, so the program object is shared, not copied).
`created_time`'s default factory is `time.time()`, passed in as `now`.
All other attributes are deep-copied; for the value-like `payload` this
is the identity. -/
def TaskObj.deepcopy (now : Int) (t : TaskObj) : TaskObj :=
  { runtime := { created_time := now, progRef := t.runtime.progRef },
    payload := t.payload }

/-- Heap lookup for program references (object identity model). -/
def progOf (heap : List Program) (t : TaskObj) : Program :=
  heap.getD t.runtime.progRef {}

/-! ## The fetch/poll activity (`scheduler.py` 33-73, claims C5, C6, C9)

`fetch_data` is a loop over poll iterations.  Everything the code reads
from the environment at iteration `n` — the kill flag at the loop top,
the result of `_is_finished` (which calls out to the executor and may
raise), and whether `executor.save` succeeds — is given by `FetchIter`.
The loop is embedded with fuel; running out of fuel models an activity
that is still polling (so the `finally` block has not run yet). -/

/-- What the environment supplies to one iteration of `fetch_data`'s loop:
`kill` is `threading.current_thread()._kill_event.is_set()` at the loop
top, `fin` is the outcome of `_is_finished(task)` (`none` = it raised),
`saveOk` is whether `executor.save` returns normally (consulted only when
`fin = some true`). -/
structure FetchIter where
  kill : Bool
  fin : Option Bool
  saveOk : Bool
deriving DecidableEq, Repr

/-- How the `while True:` loop of `fetch_data` ended. -/
inductive FetchExit where
  | cancelled   -- kill observed at the loop top: `status = 'cancelled'; break`
  | finished    -- `_is_finished` and `executor.save` succeeded: `status = 'finished'; break`
  | failed      -- an exception reached the bare `except:` clause
  | polling     -- fuel exhausted: the loop is still running
deriving DecidableEq, Repr

/-- The `try`/`while`/`except` part of `fetch_data` (scheduler.py 43-61),
iteration by iteration.  Returns the executor calls made and how the loop
ended.  On the exception path the code sets `status = 'failed'`, logs, and
calls `executor.free(task.id)`; a raising `executor.save` is still a call,
so it appears in the trace before the `free`. -/
def fetch_loop (tid : Int) (env : Nat → FetchIter) : Nat → Nat → List ECall × FetchExit
  | 0, _ => ([], .polling)
  | fuel + 1, n =>
    let it := env n
    if it.kill then ([], .cancelled)
    else
      match it.fin with
      | none => ([ECall.free tid], .failed)
      | some false => fetch_loop tid env fuel (n + 1)
      | some true =>
        if it.saveOk then ([ECall.save tid], .finished)
        else ([ECall.save tid, ECall.free tid], .failed)

/-- Environment of the `finally` block of `fetch_data` (scheduler.py 62-73):
whether `task.runtime.record` is not `None`, and whether the
`data = task.result(); ...; task.db.commit()` block returns normally
(`commitOk = false` means some part of it raised). -/
structure RecordEnv where
  hasRecord : Bool
  commitOk : Bool
deriving DecidableEq, Repr

/-- Complete outcome of a run of `fetch_data`. -/
structure FetchOutcome where
  status : Status       -- task.runtime.status afterwards
  calls : List ECall    -- executor calls made
  committed : Bool      -- the record commit completed
  escapes : Bool        -- an exception propagated out of fetch_data
deriving DecidableEq, Repr

/-- Embeds `fetch_data` (scheduler.py 42-73).  The loop's exit determines the
status written (no exit leaves `startStatus`, the status the task had when
polling began, in place).  The `finally` block then runs: if a record is
present the commit is attempted and any exception in it is caught by
`except Exception` and only logged, so nothing escapes and the status is
not touched; with fuel exhausted (`polling`) the activity has not ended,
so the `finally` block has not run. -/
def fetch_data (tid : Int) (env : Nat → FetchIter) (re : RecordEnv)
    (fuel : Nat) (startStatus : Status) : FetchOutcome :=
  let r := fetch_loop tid env fuel 0
  let st : Status :=
    match r.2 with
    | .cancelled => .cancelled
    | .finished => .finished
    | .failed => .failed
    | .polling => startStatus
  { status := st
    calls := r.1
    committed := decide (r.2 ≠ .polling) && re.hasRecord && re.commitOk
    escapes := false }

/-! ## The submit activity (`scheduler.py` 76-80, 115-134, claims C2, C6)

`submit_thread` streams compiled steps into the executor and, when its
loop exits by `break`, replays the side-effect restoration commands via
`clean_side_effects`.  The loop has NO exception handler: if an
`executor.feed` call raises, the exception escapes the activity and
`clean_side_effects` never runs. -/

/-- What the environment supplies to one iteration of `submit_thread`'s
loop: the submit thread's kill flag, the current value of
`task.runtime.step`, whether the compile thread is alive, the current
`len(task.runtime.prog.steps)` (the compile thread appends to it
concurrently), and whether the `executor.feed` call (if reached) returns
normally. -/
structure SubmitIter where
  kill : Bool
  step : Nat
  compAlive : Bool
  visible : Nat
  feedOk : Bool
deriving DecidableEq, Repr

/-- How a run of `submit_thread` ended. -/
inductive SubmitEnd where
  | cleaned   -- the loop exited by `break`; clean_side_effects ran
  | raised    -- an executor.feed call raised; the exception escaped
  | looping   -- fuel exhausted: the loop is still running
deriving DecidableEq, Repr

/-- Embeds `clean_side_effects` (scheduler.py 76-80): one WRITE per entry of the
program's side-effect map, fed at the reserved out-of-band step index -2. -/
def clean_side_effects (tid : Int) (se : List (String × Int)) : ECall :=
  ECall.feed tid (-2) (se.map fun kv => Cmd.WRITE kv.1 kv.2)

/-- The `while True:` loop of `submit_thread` (scheduler.py 117-133),
iteration by iteration; `i` is the step cursor, `n` counts loop
iterations (a `continue` consumes an iteration).  The `dataMap` keyword
payload of `executor.feed` is not modelled (no claim concerns it). -/
def submit_steps (tid : Int) (steps : List Step) (env : Nat → SubmitIter) :
    Nat → Nat → Nat → List ECall × SubmitEnd
  | 0, _, _ => ([], .looping)
  | fuel + 1, n, i =>
    let e := env n
    if e.kill then ([], .cleaned)
    else if e.step ≤ i && !e.compAlive then ([], .cleaned)
    else if i = e.visible then submit_steps tid steps env fuel (n + 1) i
    else
      let call := ECall.feed tid i (steps.getD i ⟨[], ""⟩).cmds
      if e.feedOk then
        let r := submit_steps tid steps env fuel (n + 1) (i + 1)
        (call :: r.1, r.2)
      else ([call], .raised)

/-- Embeds `submit_thread` (scheduler.py 115-134): run the streaming loop, then —
only if the loop exited normally by `break` — feed the side-effect
restoration commands (`clean_side_effects`).  `raised` means an
exception escaped the whole activity body. -/
def submit_thread (tid : Int) (steps : List Step) (se : List (String × Int))
    (env : Nat → SubmitIter) (fuel : Nat) : List ECall × SubmitEnd :=
  let r := submit_steps tid steps env fuel 0 0
  if r.2 = SubmitEnd.cleaned then (r.1 ++ [clean_side_effects tid se], .cleaned)
  else r

/-- Number of side-effect restoration feeds (feeds at step index -2) in a
trace. -/
def cleanupCount (tid : Int) (se : List (String × Int)) (tr : List ECall) : Nat :=
  tr.count (clean_side_effects tid se)

/-! ## `Scheduler.submit` (`scheduler.py` 398-441, claim C8) -/

/-- The parts of a task that `Scheduler.submit` reads or writes. -/
structure SubTask where
  status : Status := .notSubmited
  id : Int := -1
  kernelSet : Bool := false
  threadsSet : Bool := false
  snapshotSet : Bool := false
  with_feedback : Bool := false
  compileStarted : Bool := false
deriving DecidableEq, Repr

/-- The scheduler collections `Scheduler.submit` touches. -/
structure SchedQueues where
  queue : List Int := []
  task_pool : List Int := []
deriving DecidableEq, Repr

/-- Exceptions raised by `Scheduler.submit`.  The source raises
`RuntimeError(f'Task({id}, status={status}) has been submited!')`
(scheduler.py 403-405); the spec's taxonomy (§7) names this error
`AlreadySubmittedError`. -/
inductive SchedErr where
  | alreadySubmitted (id : Int) (st : Status)
deriving DecidableEq, Repr

/-- Embeds `Scheduler.submit` (scheduler.py 398-441).  Under the status lock, if
the status is not `'not submited'` it raises before touching anything;
otherwise it assigns the fresh id (`_set_kernel`), installs the three
activity threads, snapshots the configuration, starts the compile thread
and sets status `'compiling'` when the program needs no feedback (else
status `'pending'`), and — unless `dry_run` — enqueues the task and
registers it in the task pool. -/
def Scheduler.submit (newId : Int) (dry_run : Bool) (t : SubTask)
    (s : SchedQueues) : Except SchedErr (SubTask × SchedQueues) :=
  if t.status ≠ Status.notSubmited then
    .error (.alreadySubmitted t.id t.status)
  else
    let t := { t with id := newId, kernelSet := true, threadsSet := true,
                      snapshotSet := true }
    let t := if !t.with_feedback then
               { t with compileStarted := true, status := .compiling }
             else { t with status := .pending }
    if dry_run then .ok (t, s)
    else .ok (t, { queue := s.queue ++ [newId],
                   task_pool := s.task_pool ++ [newId] })

/-! ## `Scheduler.cancel` (`scheduler.py` 295-305, claim C7) -/

/-- The three scheduler collections `Scheduler.cancel` is meant to drain:
`_queue`, `_submit_stack` (top = last element), and `_waiting_pool`
(the running/fetching pool, a dict `taskID -> task`). -/
structure CancelState where
  queue : List Int := []
  submit_stack : List Int := []
  waiting_pool : List (Int × Int) := []
deriving DecidableEq, Repr

/-- Python runtime errors surfaced by the embedded scheduler methods. -/
inductive PyErr where
  | attributeError (attr : String)
deriving DecidableEq, Repr

/-- Result of a `Scheduler.cancel()` call. -/
structure CancelOutcome where
  state : CancelState
  cancelOrder : List Int     -- ids in the order task.cancel() was invoked
  executorCancelled : Bool   -- self.executor.cancel() was reached
  err : Option PyErr         -- exception propagating out of cancel()
deriving DecidableEq, Repr

/-- Embeds `Scheduler.cancel` (scheduler.py 295-305).  The first loop drains the
pending queue, cancelling each popped task; the second pops (from the
end, i.e. top first) and cancels every task on the submit stack; then
`self.executor.cancel()` runs.  The final loop's condition reads
`self._waiting_result` — an attribute `__init__` (scheduler.py 166-174)
never defines and that no line of the module ever assigns (the
running/fetching pool is named `_waiting_pool`) — so its first evaluation
raises `AttributeError` and the waiting pool is left untouched. -/
def Scheduler.cancel (s : CancelState) : CancelOutcome :=
  { state := { queue := [], submit_stack := [], waiting_pool := s.waiting_pool }
    cancelOrder := s.queue ++ s.submit_stack.reverse
    executorCancelled := true
    err := some (.attributeError "_waiting_result") }

/-! ## The status state machine (claim C4)

Every write to `task.runtime.status` in `src/waveforms/sched` is embedded
as a guarded operation of a transition system over one task's lifecycle
state.  The guards are the source's own conditions together with the
thread-structure facts the source establishes (an operation of a per-task
activity can only run once that activity's thread has been started at
dispatch, and each activity's final `break`/`return` ends its writes).
`task.cancel` lives in the repository's `task.py`, which is not under
src/; per the spec (§4.4, §5) cancellation sets a cooperative kill signal
that the fetch activity observes, which is the `kill` operation here. -/

/-- Lifecycle state of one task: its status plus the control-flow facts
the guards depend on. -/
structure LTS where
  status : Status
  inQueue : Bool            -- sits in the scheduler's pending queue
  dispatched : Bool         -- `submit()` ran: submit/fetch threads started
  submitThreadDone : Bool   -- the submit activity has exited
  fetchExited : Bool        -- the fetch activity has exited its loop
  killSet : Bool            -- the cooperative kill signal
deriving DecidableEq, Repr, Fintype

/-- A freshly created task: status `'not submited'` (TaskRuntime default). -/
def LTS.init : LTS :=
  ⟨.notSubmited, false, false, false, false, false⟩

/-- The status-writing operations of `src/waveforms/sched`. -/
inductive SOp where
  | schedSubmit (with_feedback : Bool)
      -- Scheduler.submit, scheduler.py 424-434
  | dispatch
      -- submit_loop popping the task and calling submit(), scheduler.py 98-110, 137-150
  | submitExit
      -- the submit activity's loop ends, scheduler.py 118-124
  | setRunning
      -- submit_loop top-of-stack update, scheduler.py 86-96
  | kill
      -- the cooperative kill signal is set (task.cancel, modelled from the spec)
  | fetchCancel
      -- fetch_data kill branch, scheduler.py 45-48
  | fetchFinish
      -- fetch_data finished branch, scheduler.py 51-56
  | fetchFail
      -- fetch_data bare except, scheduler.py 57-61
deriving DecidableEq, Repr, Fintype

/-- One operation applied to a task's lifecycle state.  Each branch's
guard is the source's condition; a disabled operation leaves the state
unchanged (in the source it either raises without writing, is not
reachable, or its `if` fails). -/
def LTS.step (s : LTS) : SOp → LTS
  | .schedSubmit wf =>
    -- scheduler.py 401-405: raises unless status == 'not submited';
    -- 424-429: under the lock, status := 'compiling' (no feedback,
    -- compile thread started) or 'pending'; 434: put into the queue.
    if s.status = .notSubmited then
      { s with status := if wf then .pending else .compiling, inQueue := true }
    else s
  | .dispatch =>
    -- scheduler.py 99-110: the task is popped from the queue; a task whose
    -- status reads 'cancelled' is dropped, otherwise submit() (137-150)
    -- sets status := 'submiting' under the lock and starts the submit and
    -- fetch threads.  Before dispatch no thread of this task runs, so the
    -- line-103 check and the line-141 write are not interleaved by
    -- another status writer.
    if s.inQueue ∧ s.status ≠ .cancelled then
      { s with status := .submiting, inQueue := false, dispatched := true }
    else s
  | .submitExit =>
    if s.dispatched then { s with submitThreadDone := true } else s
  | .setRunning =>
    -- scheduler.py 86-96: the stack top whose submit thread has died gets
    -- status := 'running', under the lock, only if the status is still in
    -- ['submiting', 'pending', 'compiling'].
    if s.dispatched ∧ s.submitThreadDone ∧
        (s.status = .submiting ∨ s.status = .pending ∨ s.status = .compiling) then
      { s with status := .running }
    else s
  | .kill => { s with killSet := true }
  | .fetchCancel =>
    -- scheduler.py 45-48: kill observed at the loop top.
    if s.dispatched ∧ ¬s.fetchExited ∧ s.killSet then
      { s with status := .cancelled, fetchExited := true }
    else s
  | .fetchFinish =>
    -- scheduler.py 51-56: _is_finished requires the status to be outside
    -- ['submiting', 'pending', 'compiling'] (line 38).
    if s.dispatched ∧ ¬s.fetchExited ∧
        ¬(s.status = .submiting ∨ s.status = .pending ∨ s.status = .compiling) then
      { s with status := .finished, fetchExited := true }
    else s
  | .fetchFail =>
    -- scheduler.py 57-61: the bare except writes status := 'failed'.
    if s.dispatched ∧ ¬s.fetchExited then
      { s with status := .failed, fetchExited := true }
    else s

/-- Run a sequence of operations from a given state. -/
def LTS.runFrom (s : LTS) (ops : List SOp) : LTS :=
  ops.foldl LTS.step s

/-- Run a sequence of operations on a freshly created task. -/
def LTS.run (ops : List SOp) : LTS :=
  LTS.runFrom LTS.init ops

/-- Inductive invariant tying the status to the control-flow flags. -/
def LTS.invB (s : LTS) : Bool :=
  (s.inQueue → (s.status = .pending ∨ s.status = .compiling) ∧ ¬s.dispatched) ∧
  (¬s.dispatched →
    (s.status = .notSubmited ∨ s.status = .pending ∨ s.status = .compiling) ∧
    ¬s.fetchExited ∧ ¬s.submitThreadDone) ∧
  (s.dispatched →
    s.status ≠ .notSubmited ∧ s.status ≠ .pending ∧ s.status ≠ .compiling) ∧
  (s.status.isTerminal = true → s.fetchExited)

/-- The transition relation of the state machine the claim describes:
`not submitted → {pending, compiling} → submitting → running →
{finished, failed, cancelled}`, with `cancelled`/`failed` reachable from
any non-terminal state. -/
def specEdge : Status → Status → Bool
  | .notSubmited, .pending => true
  | .notSubmited, .compiling => true
  | .pending, .submiting => true
  | .compiling, .submiting => true
  | .submiting, .running => true
  | .running, .finished => true
  | s, .cancelled => !s.isTerminal
  | s, .failed => !s.isTerminal
  | _, _ => false

/-! ## The dispatch decision of `submit_loop` (claim C3, second half) -/

/-- The decision one iteration of `submit_loop` takes on the task it
popped from the queue. -/
inductive LoopDecision where
  | dropped     -- scheduler.py 103-104: status reads 'cancelled'
  | requeued    -- scheduler.py 105-107 or 111-112: put back into the queue
  | dispatched  -- scheduler.py 108-110: submit(...) is called
deriving DecidableEq, Repr

/-- Lines 103-112 of `submit_loop`, as a function of what the code
inspects: whether the popped task's status reads `'cancelled'`, the
task's scheduled time `runtime.at` against `time.time()`, whether
`current_stack` is empty, and the value of
`task.is_children_of(current_stack[-1])`. -/
def submit_loop_decision (cancelled : Bool) (atTime now : Int)
    (stackEmpty : Bool) (childOfTop : Bool) : LoopDecision :=
  if cancelled then .dropped
  else if 0 < atTime ∧ now < atTime then .requeued
  else if stackEmpty || childOfTop then .dispatched
  else .requeued

/-! ## A nested-task run (claim C3, first half)

A two-task scenario executed under the source's `submit_loop`,
`submit`, `submit_thread` and `clean_side_effects`: parent task 1 has a
feedback program of two steps whose compile routine submits child task 2
(one step, no feedback) after compiling step 0 and waits for it before
compiling step 1 — the calibration pattern of spec §4.5.  Threads
interleave one loop iteration at a time; a schedule is a list of thread
names.  Stacks are stored top-first (Python's `list.append`/`list.pop()`
and `[-1]` all act on the same end, mapped here to the list head). -/

/-- Modelled from the spec: `Task.is_children_of` lives in the
repository's `task.py`, which is not under src/.  Per the spec (§3, §4.4,
glossary) it is the structural containment relation; in this scenario
child task 2 is nested within parent task 1 and there is no other
nesting. -/
def is_children_of (a b : Nat) : Bool :=
  a = 2 && b = 1

/-- Parent task 1's compiled program: two steps. -/
def pProg : Program :=
  { with_feedback := true
    side_effects := [("parentAddr", 0)]
    steps := [⟨[Cmd.TRIG "p0"], "state"⟩, ⟨[Cmd.TRIG "p1"], "state"⟩] }

/-- Child task 2's compiled program: one step. -/
def cProg : Program :=
  { side_effects := [("childAddr", 1)]
    steps := [⟨[Cmd.TRIG "c0"], "state"⟩] }

/-- Global state of the two-task scenario. -/
structure NestSys where
  queue : List Nat := []      -- the scheduler's pending queue
  stack : List Nat := []      -- current_stack, top first
  trace : List ECall := []    -- executor calls, in order
  pSteps : Nat := 0           -- len(parent.runtime.prog.steps) compiled so far
  pStep : Nat := 0            -- parent.runtime.step
  pCompPc : Nat := 0          -- parent main: 0 compile step 0, 1 submit child,
                              -- 2 wait for child then compile step 1, 3 exited
  pCompStarted : Bool := false
  pSubAlive : Bool := false
  pSubI : Nat := 0            -- parent submit thread's cursor i
  cSubmitted : Bool := false
  cDispatched : Bool := false
  cCompAlive : Bool := false
  cSteps : Nat := 0
  cStep : Nat := 0
  cSubAlive : Bool := false
  cSubI : Nat := 0
  cDone : Bool := false       -- child's fetch activity finished it
deriving DecidableEq, Repr

/-- Parent's compile thread is alive: started and not yet exited. -/
def NestSys.pCompAliveB (s : NestSys) : Bool :=
  s.pCompStarted && decide (s.pCompPc < 3)

/-- Is a task's submit thread alive (scheduler.py 89)? -/
def NestSys.subAlive (s : NestSys) (t : Nat) : Bool :=
  if t = 1 then s.pSubAlive else s.cSubAlive

/-- Embeds `submit` (scheduler.py 137-150) on task `t`: `executor.free(t)`,
status `'submiting'`, start the compile thread if the program has
feedback (parent's case), push onto the stack, start the submit thread,
register in the pool, start the fetch thread. -/
def NestSys.dispatch (s : NestSys) (t : Nat) : NestSys :=
  if t = 1 then
    { s with trace := s.trace ++ [ECall.free 1], stack := 1 :: s.stack,
             pCompStarted := true, pSubAlive := true }
  else
    { s with trace := s.trace ++ [ECall.free 2], stack := 2 :: s.stack,
             cDispatched := true, cSubAlive := true }

/-- One iteration of `submit_loop` (scheduler.py 85-112): pop the stack
top and push it back if its submit thread is alive (the 92-96 status
update is covered by the C4 transition system); then pop a task from the
queue and decide.  In this scenario no task's status reads `'cancelled'`
and every `runtime.at` is -1, so lines 103-107 never fire. -/
def NestSys.loopStep (s : NestSys) : NestSys :=
  let s :=
    match s.stack with
    | [] => s
    | t :: rest => if s.subAlive t then s else { s with stack := rest }
  match s.queue with
  | [] => s
  | t :: qrest =>
    if s.stack.isEmpty || is_children_of t (s.stack.headD 0) then
      NestSys.dispatch { s with queue := qrest } t
    else { s with queue := qrest ++ [t] }

/-- One step of the parent's main/compile routine (the concrete `Task.main`
is in the repository's `task.py`, not under src/; modelled from the spec:
§4.5 — a task may recursively submit and wait on a calibration child from
within its own compile routine — and §4.1's per-step compilation). -/
def NestSys.pCompStep (s : NestSys) : NestSys :=
  if ¬s.pCompStarted ∨ 3 ≤ s.pCompPc then s
  else match s.pCompPc with
    | 0 => { s with pSteps := 1, pStep := 1, pCompPc := 1 }
    | 1 => { s with queue := s.queue ++ [2], cSubmitted := true,
                    cCompAlive := true, pCompPc := 2 }
    | _ => if s.cDone then { s with pSteps := 2, pStep := 2, pCompPc := 3 }
           else s

/-- The child's compile routine: one step, compiled in one go (its compile
thread is started by `Scheduler.submit`, scheduler.py 425-427, since the
child's program has no feedback). -/
def NestSys.cCompStep (s : NestSys) : NestSys :=
  if s.cSubmitted && s.cCompAlive then
    { s with cSteps := 1, cStep := 1, cCompAlive := false }
  else s

/-- One iteration of the parent's `submit_thread` loop (scheduler.py
117-133) against the live scenario state; no kill signal is ever set in
this scenario. -/
def NestSys.pSubStep (s : NestSys) : NestSys :=
  if ¬s.pSubAlive then s
  else if s.pStep ≤ s.pSubI ∧ ¬s.pCompAliveB then
    { s with trace := s.trace ++ [clean_side_effects 1 pProg.side_effects],
             pSubAlive := false }
  else if s.pSubI = s.pSteps then s
  else
    { s with
      trace := s.trace ++
        [ECall.feed 1 s.pSubI (pProg.steps.getD s.pSubI ⟨[], ""⟩).cmds],
      pSubI := s.pSubI + 1 }

/-- One iteration of the child's `submit_thread` loop. -/
def NestSys.cSubStep (s : NestSys) : NestSys :=
  if ¬s.cSubAlive then s
  else if s.cStep ≤ s.cSubI ∧ ¬s.cCompAlive then
    { s with trace := s.trace ++ [clean_side_effects 2 cProg.side_effects],
             cSubAlive := false }
  else if s.cSubI = s.cSteps then s
  else
    { s with
      trace := s.trace ++
        [ECall.feed 2 s.cSubI (cProg.steps.getD s.cSubI ⟨[], ""⟩).cmds],
      cSubI := s.cSubI + 1 }

/-- The child's fetch activity marking it finished once its submit thread
has exited and the hardware has caught up (the detailed behaviour of
`fetch_data` is verified separately above). -/
def NestSys.cFetchStep (s : NestSys) : NestSys :=
  if s.cDispatched && !s.cSubAlive then { s with cDone := true } else s

/-- Thread names of the scenario. -/
inductive NestTid where
  | loop | pComp | pSub | cComp | cSub | cFetch
deriving DecidableEq, Repr

/-- One scheduling step: run one loop iteration of the named thread. -/
def NestSys.stepT (s : NestSys) : NestTid → NestSys
  | .loop => s.loopStep
  | .pComp => s.pCompStep
  | .pSub => s.pSubStep
  | .cComp => s.cCompStep
  | .cSub => s.cSubStep
  | .cFetch => s.cFetchStep

/-- Initial state: the parent has been submitted (`Scheduler.submit` put
it in the queue with status `'pending'`; its compile thread starts only
at dispatch because its program has feedback, scheduler.py 425-429 and
142-143). -/
def NestSys.start : NestSys := { queue := [1] }

/-- Run a schedule. -/
def NestSys.run (sched : List NestTid) : NestSys :=
  sched.foldl NestSys.stepT NestSys.start

/-- An admissible interleaving of the scenario's threads. -/
def nestSchedule : List NestTid :=
  [.loop, .pComp, .pSub, .pComp, .cComp, .loop,
   .cSub, .cSub, .cFetch, .pComp, .pSub, .pSub]

/-- Position of the first occurrence of an event in a trace. -/
def tracePos (tr : List ECall) (e : ECall) : Nat :=
  tr.findIdx (fun x => decide (x = e))

/-! ## Helper lemmas -/

/-- Every executor call the streaming loop of `submit_thread` makes is a
step feed at a nonnegative step index. -/
theorem submit_steps_mem (tid : Int) (steps : List Step)
    (env : Nat → SubmitIter) :
    ∀ (fuel n i : Nat) (e : ECall), e ∈ (submit_steps tid steps env fuel n i).1 →
      ∃ (j : Nat) (cmds : List Cmd), e = ECall.feed tid (j : Int) cmds
  | 0, _, _, _, h => absurd h (by simp [submit_steps])
  | fuel + 1, n, i, e, h => by
    rw [submit_steps] at h
    split at h
    · simp at h
    · split at h
      · simp at h
      · split at h
        · exact submit_steps_mem tid steps env fuel (n + 1) i e h
        · split at h
          · rcases List.mem_cons.mp h with h | h
            · exact ⟨i, _, h⟩
            · exact submit_steps_mem tid steps env fuel (n + 1) (i + 1) e h
          · rcases List.mem_singleton.mp h with rfl
            exact ⟨i, _, rfl⟩

/-- The streaming loop itself never emits a side-effect restoration feed
(those sit at step index -2, all loop feeds sit at indices ≥ 0). -/
theorem submit_steps_no_cleanup (tid : Int) (steps : List Step)
    (se : List (String × Int)) (env : Nat → SubmitIter)
    (fuel n i : Nat) :
    (submit_steps tid steps env fuel n i).1.count (clean_side_effects tid se) = 0 := by
  rw [List.count_eq_zero]
  intro hmem
  obtain ⟨j, cmds, hej⟩ := submit_steps_mem tid steps env fuel n i _ hmem
  rw [clean_side_effects] at hej
  have : (-2 : Int) = (j : Int) := by
    injection hej
  omega

/-- The fetch loop exits with `cancelled` and no executor call at the
first iteration whose loop-top observes the kill signal. -/
theorem fetch_loop_kill (tid : Int) (env : Nat → FetchIter) :
    ∀ (n fuel k : Nat), n < fuel →
      (env (k + n)).kill = true →
      (∀ m, m < n → (env (k + m)).kill = false ∧ (env (k + m)).fin = some false) →
      fetch_loop tid env fuel k = ([], FetchExit.cancelled)
  | 0, fuel, k, hf, hk, _ => by
    obtain ⟨f, rfl⟩ : ∃ f, fuel = f + 1 := ⟨fuel - 1, by omega⟩
    rw [fetch_loop]
    simp only [Nat.add_zero] at hk
    simp [hk]
  | n + 1, fuel, k, hf, hk, hb => by
    obtain ⟨f, rfl⟩ : ∃ f, fuel = f + 1 := ⟨fuel - 1, by omega⟩
    have h0 := hb 0 (by omega)
    rw [Nat.add_zero] at h0
    rw [fetch_loop]
    simp only [h0.1, h0.2]
    exact fetch_loop_kill tid env n f (k + 1) (by omega)
      (by rw [show k + 1 + n = k + (n + 1) from by omega]; exact hk)
      (fun m hm => by
        rw [show k + 1 + m = k + (m + 1) from by omega]
        exact hb (m + 1) (by omega))

/-- Applying `Scheduler.submit` to any task whose status is not `'not submited'`
raises before mutating anything. -/
theorem submit_raises_of_submitted (newId : Int) (dry : Bool) (u : SubTask)
    (s : SchedQueues) (hu : u.status ≠ Status.notSubmited) :
    Scheduler.submit newId dry u s =
      Except.error (SchedErr.alreadySubmitted u.id u.status) := by
  simp [Scheduler.submit, hu]

/-- The task value produced by a successful `Scheduler.submit` (the
updates of scheduler.py 406-429 collected). -/
def submittedTask (newId : Int) (t : SubTask) : SubTask :=
  let t1 := { t with id := newId, kernelSet := true, threadsSet := true,
                     snapshotSet := true }
  if !t1.with_feedback then
    { t1 with compileStarted := true, status := .compiling }
  else { t1 with status := .pending }

/-- A successfully submitted task is no longer `'not submited'`. -/
theorem submittedTask_status_ne (newId : Int) (t : SubTask) :
    (submittedTask newId t).status ≠ Status.notSubmited := by
  simp only [submittedTask]
  split <;> simp

/-- The lifecycle invariant holds initially. -/
theorem lts_inv_init : LTS.invB LTS.init = true := by decide

set_option maxRecDepth 4096 in
/-- Every operation preserves the lifecycle invariant. -/
theorem lts_inv_step :
    ∀ (s : LTS) (op : SOp), LTS.invB s = true → LTS.invB (s.step op) = true := by
  decide

/-- The lifecycle invariant holds along every run. -/
theorem lts_inv_runFrom :
    ∀ (ops : List SOp) (s : LTS), LTS.invB s = true →
      LTS.invB (LTS.runFrom s ops) = true
  | [], _, h => h
  | op :: ops, s, h => lts_inv_runFrom ops (s.step op) (lts_inv_step s op h)

set_option maxRecDepth 4096 in
/-- On any state satisfying the invariant, every operation either leaves
the status alone or moves it along an edge of the claimed state machine,
and never moves it off a terminal status. -/
theorem lts_step_sound :
    ∀ (s : LTS) (op : SOp), LTS.invB s = true →
      ((s.step op).status = s.status ∨ specEdge s.status (s.step op).status = true) ∧
      (s.status.isTerminal = true → (s.step op).status = s.status) := by
  decide

/-! ## Claim theorems -/

/-- Claim C1: the claim says `Task.__lt__` orders tasks by the tuple
`(scheduled_time, priority, creation_time)` of each task.  It does not:
base.py 259-261 puts `self.runtime.at` as the first component of BOTH
tuples, so the scheduled time is ignored entirely.  At the concrete pair
below, the task with the earlier scheduled time (and later creation time)
should sort first under the claimed order, but the code sorts it last. -/
theorem c1_lt_ignores_scheduled_time :
    task_lt ⟨0, 0, 5⟩ ⟨1, 0, 3⟩ = false ∧
    spec_task_lt ⟨0, 0, 5⟩ ⟨1, 0, 3⟩ = true ∧
    task_lt ⟨1, 0, 3⟩ ⟨0, 0, 5⟩ = true ∧
    spec_task_lt ⟨1, 0, 3⟩ ⟨0, 0, 5⟩ = false := by decide

/-- Claim C2 (amended): the side-effect restoration feed happens exactly
once whenever the submit activity's streaming loop exits by `break`
(normal completion or kill) — this is what covers the finished and
cancelled outcomes — and zero times when an `executor.feed` raises inside
the loop (the exception escapes `submit_thread`, skipping
`clean_side_effects`) or while the loop is still running. -/
theorem c2_cleanup_once_per_loop_exit (tid : Int) (steps : List Step)
    (se : List (String × Int)) (env : Nat → SubmitIter) (fuel : Nat) :
    cleanupCount tid se (submit_thread tid steps se env fuel).1 =
      if (submit_thread tid steps se env fuel).2 = SubmitEnd.cleaned then 1
      else 0 := by
  by_cases h : (submit_steps tid steps env fuel 0 0).2 = SubmitEnd.cleaned
  · simp [submit_thread, h, cleanupCount, List.count_append,
      submit_steps_no_cleanup]
  · simp [submit_thread, h, cleanupCount, submit_steps_no_cleanup]

/-- Claim C2, counterexample: task 9's submit activity hits a raising
`executor.feed` at step 0, so the restoration commands are fed zero
times, while the task still reaches the terminal status `'cancelled'`
through its fetch activity — refuting "fed exactly once when the task
reaches a terminal state, regardless of whether the task finished,
failed, or was cancelled". -/
theorem c2_counterexample :
    (submit_thread 9 [⟨[Cmd.TRIG "a"], "state"⟩] [("addr", 5)]
        (fun _ => ⟨false, 1, false, 1, false⟩) 8).2 = SubmitEnd.raised ∧
    cleanupCount 9 [("addr", 5)]
      (submit_thread 9 [⟨[Cmd.TRIG "a"], "state"⟩] [("addr", 5)]
        (fun _ => ⟨false, 1, false, 1, false⟩) 8).1 = 0 ∧
    (fetch_data 9 (fun _ => ⟨true, some false, true⟩) ⟨false, true⟩ 4
        Status.running).status = Status.cancelled := by decide

/-- Claim C3 (amended): the submission loop dispatches a popped task only
when the active-submission stack is empty or the task is nested within
the current top-of-stack task, and re-enqueues a due, non-cancelled task
that fails the containment check; but a dispatched child's step commands
CAN be fed while the parent's submit activity is still streaming (the
parent only has to be top of stack, not finished). -/
theorem c3_dispatch_guard (cancelled : Bool) (atTime now : Int)
    (stackEmpty childOfTop : Bool) :
    (submit_loop_decision cancelled atTime now stackEmpty childOfTop =
        LoopDecision.dispatched →
      stackEmpty = true ∨ childOfTop = true) ∧
    (cancelled = false → ¬(0 < atTime ∧ now < atTime) → stackEmpty = false →
      childOfTop = false →
      submit_loop_decision cancelled atTime now stackEmpty childOfTop =
        LoopDecision.requeued) := by
  constructor
  · intro h
    unfold submit_loop_decision at h
    split_ifs at h with h1 h2 h3
    all_goals simp_all
  · intro hc hat hs hct
    subst hc; subst hs; subst hct
    simp [submit_loop_decision, hat]

/-- Witness for C3's amended theorem at concrete inputs. -/
theorem c3_dispatch_guard_witness :
    (false = true ∨ true = true) ∧
    submit_loop_decision false (-1) 0 false false = LoopDecision.requeued :=
  ⟨(c3_dispatch_guard false (-1) 0 false true).1 (by decide),
   (c3_dispatch_guard false (-1) 0 false false).2 rfl (by decide) rfl rfl⟩

/-- Claim C3, counterexample: in the nested two-task run, an admissible
interleaving of the source's `submit_loop`/`submit`/`submit_thread`
feeds the child's step-0 commands (position 3 of the trace) before the
parent's submit activity has streamed the parent's last step (position
5), refuting "none of the child's step commands are fed to the executor
before the parent's submit activity has completed streaming all of the
parent's steps". -/
theorem c3_counterexample :
    (NestSys.run nestSchedule).trace =
      [ECall.free 1, ECall.feed 1 0 [Cmd.TRIG "p0"], ECall.free 2,
       ECall.feed 2 0 [Cmd.TRIG "c0"],
       ECall.feed 2 (-2) [Cmd.WRITE "childAddr" 1],
       ECall.feed 1 1 [Cmd.TRIG "p1"],
       ECall.feed 1 (-2) [Cmd.WRITE "parentAddr" 0]] ∧
    tracePos (NestSys.run nestSchedule).trace (ECall.feed 2 0 [Cmd.TRIG "c0"]) <
      tracePos (NestSys.run nestSchedule).trace (ECall.feed 1 1 [Cmd.TRIG "p1"]) := by
  decide

/-- Claim C4: along every run of the status-writing operations of
`src/waveforms/sched`, each operation either leaves the status unchanged
or moves it along an edge of the machine `not submitted → {pending,
compiling} → submitting → running → {finished, failed, cancelled}` (with
`cancelled`/`failed` reachable from any non-terminal status), and once
the status is terminal no operation ever changes it. -/
theorem c4_status_machine (ops : List SOp) (op : SOp) :
    (((LTS.run ops).step op).status = (LTS.run ops).status ∨
      specEdge (LTS.run ops).status (((LTS.run ops).step op)).status = true) ∧
    ((LTS.run ops).status.isTerminal = true →
      ((LTS.run ops).step op).status = (LTS.run ops).status) :=
  lts_step_sound (LTS.run ops) op
    (lts_inv_runFrom ops LTS.init lts_inv_init)

/-- Witness for C4 at a concrete run reaching the terminal status
`'cancelled'`, with a subsequent `fetchFail` operation left inert. -/
theorem c4_status_machine_witness :
    (LTS.run [SOp.schedSubmit false, SOp.dispatch, SOp.kill,
        SOp.fetchCancel]).status = Status.cancelled ∧
    ((LTS.run [SOp.schedSubmit false, SOp.dispatch, SOp.kill,
        SOp.fetchCancel]).step SOp.fetchFail).status =
      (LTS.run [SOp.schedSubmit false, SOp.dispatch, SOp.kill,
        SOp.fetchCancel]).status :=
  ⟨by decide,
   (c4_status_machine [SOp.schedSubmit false, SOp.dispatch, SOp.kill,
      SOp.fetchCancel] SOp.fetchFail).2 (by decide)⟩

/-- Claim C5 (amended): the fetch activity observes the kill signal at
the top of the first poll iteration after it is set and transitions the
task to `'cancelled'` there — but the cancellation path performs NO
executor call at all; in particular it does not call `free(task_id)`
(the only `executor.free` in `fetch_data` sits on the failure path,
scheduler.py 61). -/
theorem c5_cancel_within_one_poll (tid : Int) (env : Nat → FetchIter)
    (re : RecordEnv) (st0 : Status) (n fuel : Nat)
    (hfuel : n < fuel)
    (hkill : (env n).kill = true)
    (hbefore : ∀ m, m < n → (env m).kill = false ∧ (env m).fin = some false) :
    (fetch_data tid env re fuel st0).status = Status.cancelled ∧
    (fetch_data tid env re fuel st0).calls = [] := by
  have h := fetch_loop_kill tid env n fuel 0 hfuel
    (by simpa using hkill) (by simpa using hbefore)
  constructor <;> simp [fetch_data, h]

/-- Environment whose kill signal appears at poll iteration 1. -/
def envKillAtOne : Nat → FetchIter
  | 0 => ⟨false, some false, true⟩
  | _ + 1 => ⟨true, some false, true⟩

/-- Witness for C5's amended theorem at a concrete environment. -/
theorem c5_cancel_within_one_poll_witness :
    (fetch_data 7 envKillAtOne ⟨true, true⟩ 3 Status.running).status =
      Status.cancelled ∧
    (fetch_data 7 envKillAtOne ⟨true, true⟩ 3 Status.running).calls = [] :=
  c5_cancel_within_one_poll 7 envKillAtOne ⟨true, true⟩ Status.running 1 3
    (by omega) rfl
    (fun m hm => by
      have hm0 : m = 0 := by omega
      subst hm0
      exact ⟨rfl, rfl⟩)

/-- Claim C5, counterexample: a running task killed at poll iteration 0
is indeed cancelled, but the run makes zero `free(task_id)` calls —
refuting "the cancellation results in exactly one free(task_id) call to
the executor for that task" (as far as the fetch activity, the code the
claim cites, is concerned). -/
theorem c5_counterexample :
    (fetch_data 7 (fun _ => ⟨true, some false, true⟩) ⟨true, true⟩ 5
        Status.running).status = Status.cancelled ∧
    ((fetch_data 7 (fun _ => ⟨true, some false, true⟩) ⟨true, true⟩ 5
        Status.running).calls.count (ECall.free 7)) = 0 := by decide

/-- Claim C6 (amended): exceptions inside the fetch activity are caught
at the activity boundary (nothing escapes `fetch_data`) and translate
into status `'failed'`; but the submit activity has no handler — an
exception from `executor.feed` escapes `submit_thread` (see the C6
counterexample), and nothing in the scheduler module sets `'failed'` on
that path. -/
theorem c6_fetch_boundary (tid : Int) (env : Nat → FetchIter)
    (re : RecordEnv) (fuel : Nat) (st0 : Status) :
    (fetch_data tid env re fuel st0).escapes = false ∧
    ((fetch_loop tid env fuel 0).2 = FetchExit.failed →
      (fetch_data tid env re fuel st0).status = Status.failed) := by
  refine ⟨rfl, fun h => ?_⟩
  simp [fetch_data, h]

/-- Witness for C6's amended theorem: `_is_finished` raises at iteration
0; the exception is caught and the status becomes `'failed'`. -/
theorem c6_fetch_boundary_witness :
    (fetch_data 5 (fun _ => ⟨false, none, true⟩) ⟨true, true⟩ 2
        Status.running).escapes = false ∧
    (fetch_data 5 (fun _ => ⟨false, none, true⟩) ⟨true, true⟩ 2
        Status.running).status = Status.failed :=
  ⟨(c6_fetch_boundary 5 (fun _ => ⟨false, none, true⟩) ⟨true, true⟩ 2
      Status.running).1,
   (c6_fetch_boundary 5 (fun _ => ⟨false, none, true⟩) ⟨true, true⟩ 2
      Status.running).2 rfl⟩

/-- Claim C6, counterexample: an exception from `executor.feed` inside
the submit activity's loop (which has no try/except, scheduler.py
115-134) escapes the activity instead of being caught at the boundary —
refuting "Every exception raised inside a task's compile, submit, or
fetch background activity is caught at the activity boundary". -/
theorem c6_counterexample :
    (submit_thread 4 [⟨[Cmd.READ "r"], "state"⟩, ⟨[Cmd.READ "q"], "state"⟩]
        [("a", 2)] (fun _ => ⟨false, 2, false, 2, false⟩) 9).2 =
      SubmitEnd.raised := by decide

/-- Claim C7: the claim says `Scheduler.cancel()` drains all three
collections, leaving them empty.  The code drains the queue and the
stack and calls `executor.cancel()`, but its final loop reads
`self._waiting_result` — an attribute that is never defined anywhere in
the module (the pool is `self._waiting_pool`) — so it raises
`AttributeError` and leaves the running/fetching pool untouched.
Evaluated at a scheduler with one queued task, two stacked tasks and
one running task. -/
theorem c7_cancel_attribute_error :
    Scheduler.cancel ⟨[10], [11, 12], [(13, 0)]⟩ =
      { state := { queue := [], submit_stack := [], waiting_pool := [(13, 0)] },
        cancelOrder := [10, 12, 11],
        executorCancelled := true,
        err := some (PyErr.attributeError "_waiting_result") } ∧
    (Scheduler.cancel ⟨[10], [11, 12], [(13, 0)]⟩).state.waiting_pool ≠ [] := by
  decide

/-- Claim C8: a first `Scheduler.submit` of a fresh task (status
`'not submited'`) succeeds and moves the status out of
`'not submited'`; after that, submitting the same task again — and more
generally submitting any task whose status is not `'not submited'` —
raises the already-submitted error (source: `RuntimeError('... has been
submited!')`, the spec's `AlreadySubmittedError`) before mutating
anything: the error return carries the task's unchanged id and status
and no state update is produced. -/
theorem c8_submit_guard (newId : Int) (dry : Bool) (t : SubTask)
    (s : SchedQueues) (h : t.status = Status.notSubmited) :
    ∃ t' s', Scheduler.submit newId dry t s = Except.ok (t', s') ∧
      t'.status ≠ Status.notSubmited ∧
      (∀ (id2 : Int) (dry2 : Bool) (s2 : SchedQueues),
        Scheduler.submit id2 dry2 t' s2 =
          Except.error (SchedErr.alreadySubmitted t'.id t'.status)) ∧
      (∀ (id2 : Int) (dry2 : Bool) (u : SubTask) (s2 : SchedQueues),
        u.status ≠ Status.notSubmited →
        Scheduler.submit id2 dry2 u s2 =
          Except.error (SchedErr.alreadySubmitted u.id u.status)) := by
  refine ⟨submittedTask newId t,
    if dry then s else ⟨s.queue ++ [newId], s.task_pool ++ [newId]⟩, ?_,
    submittedTask_status_ne newId t,
    fun id2 dry2 s2 => submit_raises_of_submitted id2 dry2 _ s2
      (submittedTask_status_ne newId t),
    fun id2 dry2 u s2 hu => submit_raises_of_submitted id2 dry2 u s2 hu⟩
  by_cases hd : dry <;> by_cases hf : t.with_feedback <;>
    simp [Scheduler.submit, submittedTask, h, hd, hf]

/-- Witness for C8 at a concrete fresh task. -/
theorem c8_submit_guard_witness :
    ∃ t' s', Scheduler.submit 42 false {} {} = Except.ok (t', s') ∧
      t'.status ≠ Status.notSubmited ∧
      (∀ (id2 : Int) (dry2 : Bool) (s2 : SchedQueues),
        Scheduler.submit id2 dry2 t' s2 =
          Except.error (SchedErr.alreadySubmitted t'.id t'.status)) ∧
      (∀ (id2 : Int) (dry2 : Bool) (u : SubTask) (s2 : SchedQueues),
        u.status ≠ Status.notSubmited →
        Scheduler.submit id2 dry2 u s2 =
          Except.error (SchedErr.alreadySubmitted u.id u.status)) :=
  c8_submit_guard 42 false {} {} rfl

/-- Claim C9: a failing record commit in `fetch_data`'s `finally` block
is caught by the `except Exception` clause (nothing escapes), and the
status and the executor-call trace of the run are exactly those of the
same run with a succeeding commit — the already-determined outcome is
untouched; only the commit itself is lost. -/
theorem c9_commit_failure_swallowed (tid : Int) (env : Nat → FetchIter)
    (fuel : Nat) (st0 : Status) :
    (fetch_data tid env ⟨true, false⟩ fuel st0).escapes = false ∧
    (fetch_data tid env ⟨true, false⟩ fuel st0).status =
      (fetch_data tid env ⟨true, true⟩ fuel st0).status ∧
    (fetch_data tid env ⟨true, false⟩ fuel st0).calls =
      (fetch_data tid env ⟨true, true⟩ fuel st0).calls ∧
    (fetch_data tid env ⟨true, false⟩ fuel st0).committed = false := by
  refine ⟨rfl, rfl, rfl, ?_⟩
  simp [fetch_data]

/-- Claim C10: `Task.__deepcopy__` returns a task whose runtime is a
fresh default `TaskRuntime` — status `'not submited'`, id -1, empty
result buffer, no kernel — while the copy's `runtime.prog` is the
identical `Program` object of the original (same heap reference), so the
copy shares the original's compiled steps and side-effect map instead of
receiving deep copies of them. -/
theorem c10_deepcopy_fresh_runtime_shared_prog (t : TaskObj) (now : Int)
    (heap : List Program) :
    (t.deepcopy now).runtime.status = Status.notSubmited ∧
    (t.deepcopy now).runtime.id = -1 ∧
    (t.deepcopy now).runtime.result = emptyResult ∧
    (t.deepcopy now).runtime.kernel = none ∧
    (t.deepcopy now).runtime.progRef = t.runtime.progRef ∧
    (progOf heap (t.deepcopy now)).steps = (progOf heap t).steps ∧
    (progOf heap (t.deepcopy now)).side_effects = (progOf heap t).side_effects :=
  ⟨rfl, rfl, rfl, rfl, rfl, rfl, rfl⟩

end Waveforms
